import Mathlib

/-!
Verification of the login-attempt rate limiter of the expense-tracker backend
(src/main.py, together with the LoginAttempt table of src/models.py).

Modelling choices (shallow embedding):
* Timestamps are integer seconds; the value of datetime.utcnow() at the moment
  a function runs becomes an explicit `now : Int` parameter.  Both utcnow()
  calls inside is_user_blocked are made at a single instant, matching an
  evaluation of the function at one point in time.
* timedelta(minutes=1) is 60 and timedelta(minutes=30) is 1800.
* The login_attempts table is a list of rows in insertion (id) order; the
  success column is an Integer stored as 0 or 1, exactly as in models.py.
* The SQL query "filter(username == u, success == 0, timestamp >= since)" is a
  List.filter; ".count()" is the length of that filter; ".order_by(timestamp
  .asc()).limit(1).first()" returns a row of minimal timestamp, so the only
  field the code reads from it (its timestamp) is the minimum of the filtered
  timestamps.
* Credential checking (crud.get_user_by_username and auth.authenticate_user)
  is abstracted into boolean-valued functions passed to the endpoint models;
  the endpoints only branch on their results.
-/

/-- A row of the login_attempts table (models.py, LoginAttempt): username,
ip_address, success stored as 0/1, timestamp. The auto-increment id is
represented by the position in the list. -/
structure LoginAttempt where
  username : String
  ip_address : String
  success : Nat
  timestamp : Int
deriving DecidableEq

/-- The rows selected by the shared query of is_user_blocked and
get_block_remaining_time: same username, success == 0, timestamp >= since. -/
def recentFailedAttempts (log : List LoginAttempt) (username : String) (since : Int) :
    List LoginAttempt :=
  log.filter (fun a => a.username == username && a.success == 0 && decide (since ≤ a.timestamp))

/-- The ".count()" of the query above (main.py line 109-113). -/
def countRecentFailed (log : List LoginAttempt) (username : String) (since : Int) : Nat :=
  (recentFailedAttempts log username since).length

/-- The timestamp of ".order_by(timestamp.asc()).limit(1).first()" on the query
above: the minimal timestamp among the selected rows, none if no row matches. -/
def earliestRecentFailedTs (log : List LoginAttempt) (username : String) (since : Int) :
    Option Int :=
  ((recentFailedAttempts log username since).map (fun a => a.timestamp)).min?

/-- main.py is_user_blocked (lines 104-129): count failed attempts in the last
minute; if at least 5, fetch the earliest such attempt and report blocked when
its timestamp is within the last 30 minutes. -/
def is_user_blocked (log : List LoginAttempt) (username : String) (now : Int) : Bool :=
  let one_minute_ago := now - 60
  let failed_attempts := countRecentFailed log username one_minute_ago
  if 5 ≤ failed_attempts then
    let thirty_minutes_ago := now - 1800
    match earliestRecentFailedTs log username one_minute_ago with
    | some t => decide (thirty_minutes_ago ≤ t)
    | none => false
  else
    false

/-- main.py get_block_remaining_time (lines 132-148): look up the earliest
failed attempt of the last minute; if found return
max(0, its timestamp + 30 minutes - now), else 0. -/
def get_block_remaining_time (log : List LoginAttempt) (username : String) (now : Int) : Int :=
  let one_minute_ago := now - 60
  match earliestRecentFailedTs log username one_minute_ago with
  | some t =>
      let block_end := t + 1800
      let remaining := block_end - now
      max 0 remaining
  | none => 0

/-- main.py log_login_attempt (lines 92-101): append one row with the current
instant, success stored as 1 for a successful attempt and 0 otherwise. -/
def log_login_attempt (log : List LoginAttempt) (username ip_address : String)
    (success : Bool) (now : Int) : List LoginAttempt :=
  log ++ [⟨username, ip_address, if success then 1 else 0, now⟩]

/-- Observable outcome of a login or token request. The blocked constructor
carries the two numbers the 429 detail string embeds:
remaining_time / 60 minutes and remaining_time % 60 seconds. -/
inductive LoginOutcome where
  | blocked (minutes seconds : Int)
  | invalidCredentials
  | token
deriving DecidableEq

/-- HTTP status carried by each outcome: 429 for the rate-limit rejection,
401 for bad credentials, 200 for a token response. -/
def statusCode : LoginOutcome → Nat
  | .blocked _ _ => 429
  | .invalidCredentials => 401
  | .token => 200

/-- main.py login endpoint (lines 228-312): if the user is blocked, answer 429
with the remaining time split into minutes and seconds and write nothing;
otherwise check username existence (findUser, crud.get_user_by_username) then
credentials (auth, authenticate_user), logging one failed attempt and
answering 401 on either failure, or logging one successful attempt and issuing
a token. Returns the outcome together with the table after the request.
remaining_time is nonnegative, so Python floor division // and Lean integer
division agree on it, as do % and Lean mod. -/
def login (findUser : String → Bool) (auth : String → String → Bool)
    (log : List LoginAttempt) (username password ip : String) (now : Int) :
    LoginOutcome × List LoginAttempt :=
  if is_user_blocked log username now then
    let remaining_time := get_block_remaining_time log username now
    (.blocked (remaining_time / 60) (remaining_time % 60), log)
  else if !findUser username then
    (.invalidCredentials, log_login_attempt log username ip false now)
  else if !auth username password then
    (.invalidCredentials, log_login_attempt log username ip false now)
  else
    (.token, log_login_attempt log username ip true now)

/-- main.py token endpoint login_for_access_token (lines 317-366): identical to
login except that it skips the separate username-existence query and relies on
authenticate_user alone. -/
def login_for_access_token (auth : String → String → Bool)
    (log : List LoginAttempt) (username password ip : String) (now : Int) :
    LoginOutcome × List LoginAttempt :=
  if is_user_blocked log username now then
    let remaining_time := get_block_remaining_time log username now
    (.blocked (remaining_time / 60) (remaining_time % 60), log)
  else if !auth username password then
    (.invalidCredentials, log_login_attempt log username ip false now)
  else
    (.token, log_login_attempt log username ip true now)

/-- Spec-side reformulation used for the refinement comparison: blocked exactly
when at least 5 failed attempts fall in the trailing minute, with no separate
30-minute test. -/
def isBlockedByCount (log : List LoginAttempt) (username : String) (now : Int) : Bool :=
  decide (5 ≤ countRecentFailed log username (now - 60))

/-- A run of five requests for one username against an initially empty table,
alternating the two endpoints: three through the login endpoint (at t1, t3,
t5) and two through the token endpoint (at t2, t4). Returns the table that a
sixth request would observe. -/
def carolRun (fu : String → Bool) (au : String → String → Bool)
    (u p ip : String) (t1 t2 t3 t4 t5 : Int) : List LoginAttempt :=
  let l1 := (login fu au [] u p ip t1).2
  let l2 := (login_for_access_token au l1 u p ip t2).2
  let l3 := (login fu au l2 u p ip t3).2
  let l4 := (login_for_access_token au l3 u p ip t4).2
  (login fu au l4 u p ip t5).2

/-! Helper lemmas shared by the claim theorems. -/

theorem mem_recentFailedAttempts {log : List LoginAttempt} {u : String} {s : Int}
    {a : LoginAttempt} (h : a ∈ recentFailedAttempts log u s) :
    a ∈ log ∧ a.username = u ∧ a.success = 0 ∧ s ≤ a.timestamp := by
  obtain ⟨hmem, hcond⟩ := List.mem_filter.mp h
  simp only [Bool.and_eq_true, beq_iff_eq, decide_eq_true_eq] at hcond
  exact ⟨hmem, hcond.1.1, hcond.1.2, hcond.2⟩

theorem earliestRecentFailedTs_spec {log : List LoginAttempt} {u : String} {s m : Int}
    (h : earliestRecentFailedTs log u s = some m) :
    s ≤ m ∧ ∃ a ∈ log, a.timestamp = m := by
  have hmem : m ∈ (recentFailedAttempts log u s).map (fun a => a.timestamp) :=
    List.min?_mem (fun a b => min_choice a b) h
  obtain ⟨a, hafil, hts⟩ := List.mem_map.mp hmem
  have hinfo := mem_recentFailedAttempts hafil
  exact ⟨hts ▸ hinfo.2.2.2, a, hinfo.1, hts⟩

theorem earliestRecentFailedTs_isSome {log : List LoginAttempt} {u : String} {s : Int}
    (h : 1 ≤ countRecentFailed log u s) :
    ∃ m, earliestRecentFailedTs log u s = some m := by
  unfold countRecentFailed at h
  unfold earliestRecentFailedTs
  cases hmin : ((recentFailedAttempts log u s).map (fun a => a.timestamp)).min? with
  | none =>
      rw [List.min?_eq_none_iff] at hmin
      rcases List.map_eq_nil_iff.mp hmin with hnil
      rw [hnil] at h
      simp at h
  | some m => exact ⟨m, rfl⟩

theorem is_user_blocked_eq_isBlockedByCount (log : List LoginAttempt) (u : String) (now : Int) :
    is_user_blocked log u now = isBlockedByCount log u now := by
  unfold is_user_blocked isBlockedByCount
  by_cases hc : 5 ≤ countRecentFailed log u (now - 60)
  · obtain ⟨m, hm⟩ := earliestRecentFailedTs_isSome (le_trans (by norm_num) hc)
    have hsince := (earliestRecentFailedTs_spec hm).1
    simp only [hc, if_pos, hm, decide_eq_true_eq]
    have : now - 1800 ≤ m := by omega
    simp [this, hc]
  · simp [hc]

theorem not_blocked_of_count_lt (log : List LoginAttempt) (u : String) (now : Int)
    (h : countRecentFailed log u (now - 60) < 5) :
    is_user_blocked log u now = false := by
  rw [is_user_blocked_eq_isBlockedByCount]
  unfold isBlockedByCount
  simp [Nat.not_le.mpr h]

theorem not_blocked_of_length_lt (log : List LoginAttempt) (u : String) (now : Int)
    (h : log.length < 5) :
    is_user_blocked log u now = false := by
  refine not_blocked_of_count_lt log u now (lt_of_le_of_lt ?_ h)
  exact List.length_filter_le _ _

theorem remaining_of_earliest {log : List LoginAttempt} {u : String} {now m : Int}
    (h : earliestRecentFailedTs log u (now - 60) = some m) :
    get_block_remaining_time log u now = max 0 (m + 1800 - now) := by
  dsimp only [get_block_remaining_time]
  rw [h]

theorem remaining_of_no_earliest {log : List LoginAttempt} {u : String} {now : Int}
    (h : earliestRecentFailedTs log u (now - 60) = none) :
    get_block_remaining_time log u now = 0 := by
  dsimp only [get_block_remaining_time]
  rw [h]

theorem remaining_ge_1740 {log : List LoginAttempt} {u : String} {now m : Int}
    (h : earliestRecentFailedTs log u (now - 60) = some m) :
    1740 ≤ get_block_remaining_time log u now := by
  have hsince := (earliestRecentFailedTs_spec h).1
  rw [remaining_of_earliest h]
  omega

theorem remaining_nonneg (log : List LoginAttempt) (u : String) (now : Int) :
    0 ≤ get_block_remaining_time log u now := by
  dsimp only [get_block_remaining_time]
  cases earliestRecentFailedTs log u (now - 60) with
  | some t => exact le_max_left _ _
  | none => exact le_refl (0 : Int)

theorem login_snd_of_auth_false {fu : String → Bool} {au : String → String → Bool}
    {log : List LoginAttempt} {u p ip : String} {now : Int}
    (hau : au u p = false) (hnb : is_user_blocked log u now = false) :
    (login fu au log u p ip now).2 = log ++ [⟨u, ip, 0, now⟩] := by
  unfold login
  rw [hnb]
  cases hfu : fu u <;> simp [hau, log_login_attempt]

theorem token_snd_of_auth_false {au : String → String → Bool}
    {log : List LoginAttempt} {u p ip : String} {now : Int}
    (hau : au u p = false) (hnb : is_user_blocked log u now = false) :
    (login_for_access_token au log u p ip now).2 = log ++ [⟨u, ip, 0, now⟩] := by
  unfold login_for_access_token
  rw [hnb]
  simp [hau, log_login_attempt]

/-- C1: for a username with at least 5 failed attempts inside the trailing
minute, is_user_blocked answers true exactly when the earliest such failed
attempt lies within the trailing 30 minutes. -/
theorem C1_blocked_iff_trigger_within_30min (log : List LoginAttempt) (u : String)
    (now m : Int) (hcount : 5 ≤ countRecentFailed log u (now - 60))
    (hm : earliestRecentFailedTs log u (now - 60) = some m) :
    is_user_blocked log u now = true ↔ now - 1800 ≤ m := by
  dsimp only [is_user_blocked]
  rw [if_pos hcount, hm]
  simp

theorem C1_witness :
    5 ≤ countRecentFailed [⟨"alice", "ip", 0, 0⟩, ⟨"alice", "ip", 0, 1⟩, ⟨"alice", "ip", 0, 2⟩,
        ⟨"alice", "ip", 0, 3⟩, ⟨"alice", "ip", 0, 4⟩] "alice" (10 - 60) ∧
    earliestRecentFailedTs [⟨"alice", "ip", 0, 0⟩, ⟨"alice", "ip", 0, 1⟩, ⟨"alice", "ip", 0, 2⟩,
        ⟨"alice", "ip", 0, 3⟩, ⟨"alice", "ip", 0, 4⟩] "alice" (10 - 60) = some 0 ∧
    (is_user_blocked [⟨"alice", "ip", 0, 0⟩, ⟨"alice", "ip", 0, 1⟩, ⟨"alice", "ip", 0, 2⟩,
        ⟨"alice", "ip", 0, 3⟩, ⟨"alice", "ip", 0, 4⟩] "alice" 10 = true ↔ (10 : Int) - 1800 ≤ 0) :=
  ⟨by decide, by decide,
    C1_blocked_iff_trigger_within_30min _ "alice" 10 0 (by decide) (by decide)⟩

/-- C2: get_block_remaining_time returns max(0, earliest + 1800 - now) when an
earliest failed attempt exists in the trailing minute and 0 otherwise, with no
5-count gate: a single recent failure already yields a strictly positive
value. -/
theorem C2_remaining_formula (log : List LoginAttempt) (u : String) (now : Int) :
    (∀ m, earliestRecentFailedTs log u (now - 60) = some m →
        get_block_remaining_time log u now = max 0 (m + 1800 - now)) ∧
    (earliestRecentFailedTs log u (now - 60) = none →
        get_block_remaining_time log u now = 0) ∧
    (1 ≤ countRecentFailed log u (now - 60) →
        0 < get_block_remaining_time log u now) := by
  refine ⟨fun m hm => remaining_of_earliest hm, fun h => remaining_of_no_earliest h,
    fun hc => ?_⟩
  obtain ⟨m, hm⟩ := earliestRecentFailedTs_isSome hc
  have h1740 := remaining_ge_1740 hm
  omega

theorem C2_witness :
    1 ≤ countRecentFailed [⟨"bob", "ip", 0, -5⟩] "bob" (0 - 60) ∧
    0 < get_block_remaining_time [⟨"bob", "ip", 0, -5⟩] "bob" 0 :=
  ⟨by decide, (C2_remaining_formula [⟨"bob", "ip", 0, -5⟩] "bob" 0).2.2 (by decide)⟩

/-- C3: a username with at most 4 failed attempts inside the trailing minute is
never blocked; in particular an unknown username with no attempts is not
blocked, and a previously blocked user unblocks as soon as fewer than 5
failures remain inside the window. -/
theorem C3_not_blocked_below_threshold (log : List LoginAttempt) (u : String) (now : Int)
    (h : countRecentFailed log u (now - 60) ≤ 4) :
    is_user_blocked log u now = false :=
  not_blocked_of_count_lt log u now (by omega)

theorem C3_witness :
    countRecentFailed [] "dave" (5 - 60) ≤ 4 ∧ is_user_blocked [] "dave" 5 = false :=
  ⟨by decide, C3_not_blocked_below_threshold [] "dave" 5 (by decide)⟩

/-- C5: the 30-minute re-check inside is_user_blocked is vacuous, because the
earliest recent failure already lies within the last 60 seconds; the function
is extensionally the simple threshold test on the recent failure count. -/
theorem C5_blocked_iff_count (log : List LoginAttempt) (u : String) (now : Int) :
    is_user_blocked log u now = isBlockedByCount log u now :=
  is_user_blocked_eq_isBlockedByCount log u now

/-- C6: an attempt stored with success = 1 never contributes to the failure
count or to the triggering-attempt lookup, wherever it sits in the table:
removing it changes neither is_user_blocked nor get_block_remaining_time, so
it neither counts as a failure nor resets the failures around it. -/
theorem C6_success_attempt_irrelevant (a : LoginAttempt) (ha : a.success = 1)
    (l1 l2 : List LoginAttempt) (u : String) (now : Int) :
    is_user_blocked (l1 ++ a :: l2) u now = is_user_blocked (l1 ++ l2) u now ∧
    get_block_remaining_time (l1 ++ a :: l2) u now
      = get_block_remaining_time (l1 ++ l2) u now := by
  have hfil : ∀ s, recentFailedAttempts (l1 ++ a :: l2) u s
      = recentFailedAttempts (l1 ++ l2) u s := by
    intro s
    unfold recentFailedAttempts
    simp [List.filter_append, List.filter_cons, ha]
  have hcount : ∀ s, countRecentFailed (l1 ++ a :: l2) u s
      = countRecentFailed (l1 ++ l2) u s := by
    intro s
    unfold countRecentFailed
    rw [hfil]
  have hear : ∀ s, earliestRecentFailedTs (l1 ++ a :: l2) u s
      = earliestRecentFailedTs (l1 ++ l2) u s := by
    intro s
    unfold earliestRecentFailedTs
    rw [hfil]
  constructor
  · dsimp only [is_user_blocked]
    rw [hcount, hear]
  · dsimp only [get_block_remaining_time]
    rw [hear]

/-- C7: a request for a blocked username is rejected by both endpoints with
status 429 carrying remaining / 60 minutes and remaining % 60 seconds, the
attempt table is left unchanged, and the outcome is independent of the user
lookup and credential-check functions, so no credential verification takes
place. -/
theorem C7_blocked_request_rejected (fu : String → Bool) (au : String → String → Bool)
    (log : List LoginAttempt) (u p ip : String) (now : Int)
    (hb : is_user_blocked log u now = true) :
    login fu au log u p ip now =
      (.blocked (get_block_remaining_time log u now / 60)
        (get_block_remaining_time log u now % 60), log) ∧
    login_for_access_token au log u p ip now =
      (.blocked (get_block_remaining_time log u now / 60)
        (get_block_remaining_time log u now % 60), log) ∧
    statusCode (login fu au log u p ip now).1 = 429 ∧
    statusCode (login_for_access_token au log u p ip now).1 = 429 ∧
    ∀ (fu' : String → Bool) (au' : String → String → Bool),
      login fu' au' log u p ip now = login fu au log u p ip now ∧
      login_for_access_token au' log u p ip now = login_for_access_token au log u p ip now := by
  have hl : ∀ (fu0 : String → Bool) (au0 : String → String → Bool),
      login fu0 au0 log u p ip now =
        (.blocked (get_block_remaining_time log u now / 60)
          (get_block_remaining_time log u now % 60), log) := by
    intro fu0 au0
    simp [login, hb]
  have ht : ∀ (au0 : String → String → Bool),
      login_for_access_token au0 log u p ip now =
        (.blocked (get_block_remaining_time log u now / 60)
          (get_block_remaining_time log u now % 60), log) := by
    intro au0
    simp [login_for_access_token, hb]
  refine ⟨hl fu au, ht au, ?_, ?_, fun fu' au' =>
    ⟨(hl fu' au').trans (hl fu au).symm, (ht au').trans (ht au).symm⟩⟩
  · rw [hl fu au]
    rfl
  · rw [ht au]
    rfl

theorem C7_witness :
    is_user_blocked [⟨"eve", "ip", 0, 0⟩, ⟨"eve", "ip", 0, 1⟩, ⟨"eve", "ip", 0, 2⟩,
        ⟨"eve", "ip", 0, 3⟩, ⟨"eve", "ip", 0, 4⟩] "eve" 10 = true ∧
    login (fun _ => true) (fun _ _ => true)
        [⟨"eve", "ip", 0, 0⟩, ⟨"eve", "ip", 0, 1⟩, ⟨"eve", "ip", 0, 2⟩,
          ⟨"eve", "ip", 0, 3⟩, ⟨"eve", "ip", 0, 4⟩] "eve" "pw" "ip" 10 =
      (.blocked
        (get_block_remaining_time [⟨"eve", "ip", 0, 0⟩, ⟨"eve", "ip", 0, 1⟩,
          ⟨"eve", "ip", 0, 2⟩, ⟨"eve", "ip", 0, 3⟩, ⟨"eve", "ip", 0, 4⟩] "eve" 10 / 60)
        (get_block_remaining_time [⟨"eve", "ip", 0, 0⟩, ⟨"eve", "ip", 0, 1⟩,
          ⟨"eve", "ip", 0, 2⟩, ⟨"eve", "ip", 0, 3⟩, ⟨"eve", "ip", 0, 4⟩] "eve" 10 % 60),
        [⟨"eve", "ip", 0, 0⟩, ⟨"eve", "ip", 0, 1⟩, ⟨"eve", "ip", 0, 2⟩,
          ⟨"eve", "ip", 0, 3⟩, ⟨"eve", "ip", 0, 4⟩]) :=
  ⟨by decide,
    (C7_blocked_request_rejected (fun _ => true) (fun _ _ => true)
      [⟨"eve", "ip", 0, 0⟩, ⟨"eve", "ip", 0, 1⟩, ⟨"eve", "ip", 0, 2⟩,
        ⟨"eve", "ip", 0, 3⟩, ⟨"eve", "ip", 0, 4⟩] "eve" "pw" "ip" 10 (by decide)).1⟩

/-- C8: a blocked-rejected request leaves the table unchanged, every other
handled request appends exactly one row (success = 1 exactly when the
credentials check out, timestamped now), and both endpoints only ever extend
the table, never rewriting existing rows. -/
theorem C8_one_row_per_handled_request (fu : String → Bool) (au : String → String → Bool)
    (log : List LoginAttempt) (u p ip : String) (now : Int) :
    (login fu au log u p ip now).2 =
      (if is_user_blocked log u now then log
       else log ++ [⟨u, ip, if fu u && au u p then 1 else 0, now⟩]) ∧
    (login_for_access_token au log u p ip now).2 =
      (if is_user_blocked log u now then log
       else log ++ [⟨u, ip, if au u p then 1 else 0, now⟩]) ∧
    (∃ tail, (login fu au log u p ip now).2 = log ++ tail) ∧
    (∃ tail, (login_for_access_token au log u p ip now).2 = log ++ tail) := by
  have h1 : (login fu au log u p ip now).2 =
      (if is_user_blocked log u now then log
       else log ++ [⟨u, ip, if fu u && au u p then 1 else 0, now⟩]) := by
    cases hb : is_user_blocked log u now
    · cases hfu : fu u <;> cases hau : au u p <;>
        simp [login, hb, hfu, hau, log_login_attempt]
    · simp [login, hb]
  have h2 : (login_for_access_token au log u p ip now).2 =
      (if is_user_blocked log u now then log
       else log ++ [⟨u, ip, if au u p then 1 else 0, now⟩]) := by
    cases hb : is_user_blocked log u now
    · cases hau : au u p <;> simp [login_for_access_token, hb, hau, log_login_attempt]
    · simp [login_for_access_token, hb]
  refine ⟨h1, h2, ?_, ?_⟩
  · rw [h1]
    cases is_user_blocked log u now
    · exact ⟨[⟨u, ip, if fu u && au u p then 1 else 0, now⟩], by simp⟩
    · exact ⟨[], by simp⟩
  · rw [h2]
    cases is_user_blocked log u now
    · exact ⟨[⟨u, ip, if au u p then 1 else 0, now⟩], by simp⟩
    · exact ⟨[], by simp⟩

theorem C6_witness :
    (LoginAttempt.mk "bob" "ip" 1 3).success = 1 ∧
    (is_user_blocked [⟨"bob", "ip", 0, 1⟩, ⟨"bob", "ip", 1, 3⟩, ⟨"bob", "ip", 0, 4⟩] "bob" 10
        = is_user_blocked [⟨"bob", "ip", 0, 1⟩, ⟨"bob", "ip", 0, 4⟩] "bob" 10 ∧
      get_block_remaining_time
          [⟨"bob", "ip", 0, 1⟩, ⟨"bob", "ip", 1, 3⟩, ⟨"bob", "ip", 0, 4⟩] "bob" 10
        = get_block_remaining_time [⟨"bob", "ip", 0, 1⟩, ⟨"bob", "ip", 0, 4⟩] "bob" 10) :=
  ⟨rfl, C6_success_attempt_irrelevant ⟨"bob", "ip", 1, 3⟩ rfl
    [⟨"bob", "ip", 0, 1⟩] [⟨"bob", "ip", 0, 4⟩] "bob" 10⟩

/-- C9: the two endpoints feed and consult the same attempt table: after 3
failed attempts through the login endpoint and 2 through the token endpoint,
all within the trailing minute of instant t, a sixth request at t on either
endpoint is rejected with status 429. -/
theorem C9_shared_log_across_endpoints (fu : String → Bool) (au : String → String → Bool)
    (u p ip : String) (t1 t2 t3 t4 t5 t : Int) (hau : au u p = false)
    (h1 : t - 60 ≤ t1) (h2 : t - 60 ≤ t2) (h3 : t - 60 ≤ t3) (h4 : t - 60 ≤ t4)
    (h5 : t - 60 ≤ t5) :
    statusCode (login fu au (carolRun fu au u p ip t1 t2 t3 t4 t5) u p ip t).1 = 429 ∧
    statusCode
      (login_for_access_token au (carolRun fu au u p ip t1 t2 t3 t4 t5) u p ip t).1
      = 429 := by
  have e1 : (login fu au [] u p ip t1).2 = [⟨u, ip, 0, t1⟩] := by
    rw [login_snd_of_auth_false hau (not_blocked_of_length_lt [] u t1 (by decide))]
    rfl
  have e2 : (login_for_access_token au [⟨u, ip, 0, t1⟩] u p ip t2).2
      = [⟨u, ip, 0, t1⟩, ⟨u, ip, 0, t2⟩] := by
    rw [token_snd_of_auth_false hau (not_blocked_of_length_lt _ u t2 (by simp))]
    rfl
  have e3 : (login fu au [⟨u, ip, 0, t1⟩, ⟨u, ip, 0, t2⟩] u p ip t3).2
      = [⟨u, ip, 0, t1⟩, ⟨u, ip, 0, t2⟩, ⟨u, ip, 0, t3⟩] := by
    rw [login_snd_of_auth_false hau (not_blocked_of_length_lt _ u t3 (by simp))]
    rfl
  have e4 : (login_for_access_token au
        [⟨u, ip, 0, t1⟩, ⟨u, ip, 0, t2⟩, ⟨u, ip, 0, t3⟩] u p ip t4).2
      = [⟨u, ip, 0, t1⟩, ⟨u, ip, 0, t2⟩, ⟨u, ip, 0, t3⟩, ⟨u, ip, 0, t4⟩] := by
    rw [token_snd_of_auth_false hau (not_blocked_of_length_lt _ u t4 (by simp))]
    rfl
  have e5 : (login fu au
        [⟨u, ip, 0, t1⟩, ⟨u, ip, 0, t2⟩, ⟨u, ip, 0, t3⟩, ⟨u, ip, 0, t4⟩] u p ip t5).2
      = [⟨u, ip, 0, t1⟩, ⟨u, ip, 0, t2⟩, ⟨u, ip, 0, t3⟩, ⟨u, ip, 0, t4⟩, ⟨u, ip, 0, t5⟩] := by
    rw [login_snd_of_auth_false hau (not_blocked_of_length_lt _ u t5 (by simp))]
    rfl
  have hrun : carolRun fu au u p ip t1 t2 t3 t4 t5
      = [⟨u, ip, 0, t1⟩, ⟨u, ip, 0, t2⟩, ⟨u, ip, 0, t3⟩, ⟨u, ip, 0, t4⟩, ⟨u, ip, 0, t5⟩] := by
    dsimp only [carolRun]
    rw [e1, e2, e3, e4, e5]
  have hall : ∀ a ∈ ([⟨u, ip, 0, t1⟩, ⟨u, ip, 0, t2⟩, ⟨u, ip, 0, t3⟩, ⟨u, ip, 0, t4⟩,
      ⟨u, ip, 0, t5⟩] : List LoginAttempt),
      (a.username == u && a.success == 0 && decide (t - 60 ≤ a.timestamp)) = true := by
    intro a ha
    simp only [List.mem_cons, List.not_mem_nil, or_false] at ha
    rcases ha with rfl | rfl | rfl | rfl | rfl
    · simp [h1]
    · simp [h2]
    · simp [h3]
    · simp [h4]
    · simp [h5]
  have hcount : countRecentFailed
      [⟨u, ip, 0, t1⟩, ⟨u, ip, 0, t2⟩, ⟨u, ip, 0, t3⟩, ⟨u, ip, 0, t4⟩, ⟨u, ip, 0, t5⟩]
      u (t - 60) = 5 := by
    unfold countRecentFailed recentFailedAttempts
    rw [List.filter_eq_self.mpr hall]
    rfl
  have hblocked : is_user_blocked
      [⟨u, ip, 0, t1⟩, ⟨u, ip, 0, t2⟩, ⟨u, ip, 0, t3⟩, ⟨u, ip, 0, t4⟩, ⟨u, ip, 0, t5⟩]
      u t = true := by
    rw [is_user_blocked_eq_isBlockedByCount]
    unfold isBlockedByCount
    simp [hcount]
  rw [hrun]
  exact ⟨by simp [login, hblocked, statusCode], by simp [login_for_access_token, hblocked, statusCode]⟩

theorem C9_witness :
    statusCode (login (fun _ => false) (fun _ _ => false)
      (carolRun (fun _ => false) (fun _ _ => false) "carol" "pw" "ip" 0 1 2 3 4)
      "carol" "pw" "ip" 30).1 = 429 ∧
    statusCode (login_for_access_token (fun _ _ => false)
      (carolRun (fun _ => false) (fun _ _ => false) "carol" "pw" "ip" 0 1 2 3 4)
      "carol" "pw" "ip" 30).1 = 429 :=
  C9_shared_log_across_endpoints (fun _ => false) (fun _ _ => false) "carol" "pw" "ip"
    0 1 2 3 4 30 rfl (by decide) (by decide) (by decide) (by decide) (by decide)

/-- C10: when every recorded timestamp is at or before now, the remaining block
time lies between 0 and 1800 seconds, and as soon as one failed attempt falls
in the trailing minute it is at least 1740 seconds, so the clamp to 0 never
fires on a found attempt. -/
theorem C10_remaining_bounds (log : List LoginAttempt) (u : String) (now : Int)
    (hts : ∀ a ∈ log, a.timestamp ≤ now) :
    0 ≤ get_block_remaining_time log u now ∧
    get_block_remaining_time log u now ≤ 1800 ∧
    (1 ≤ countRecentFailed log u (now - 60) →
      1740 ≤ get_block_remaining_time log u now) := by
  refine ⟨remaining_nonneg log u now, ?_, fun hc => ?_⟩
  · cases he : earliestRecentFailedTs log u (now - 60) with
    | none =>
        rw [remaining_of_no_earliest he]
        norm_num
    | some m =>
        obtain ⟨hsince, a, halog, hats⟩ := earliestRecentFailedTs_spec he
        have hle : m ≤ now := hats ▸ hts a halog
        rw [remaining_of_earliest he]
        omega
  · obtain ⟨m, hm⟩ := earliestRecentFailedTs_isSome hc
    exact remaining_ge_1740 hm

theorem C10_witness :
    1740 ≤ get_block_remaining_time [⟨"frank", "ip", 0, -10⟩] "frank" 0 ∧
    get_block_remaining_time [⟨"frank", "ip", 0, -10⟩] "frank" 0 ≤ 1800 :=
  ⟨(C10_remaining_bounds [⟨"frank", "ip", 0, -10⟩] "frank" 0 (by decide)).2.2 (by decide),
   (C10_remaining_bounds [⟨"frank", "ip", 0, -10⟩] "frank" 0 (by decide)).2.1⟩

/-- C4 counterexample: the claimed monotonicity fails on the code. With
failures recorded at -59 and 0 and no new attempts, the remaining time at
now = 2 (1798, the -59 attempt has left the 1-minute window so the trigger
shifts to the failure at 0) exceeds the remaining time at now = 0 (1741). -/
theorem C4_counterexample :
    (0 : Int) ≤ 2 ∧
    ¬ (get_block_remaining_time [⟨"alice", "ip", 0, -59⟩, ⟨"alice", "ip", 0, 0⟩] "alice" 2
        ≤ get_block_remaining_time
            [⟨"alice", "ip", 0, -59⟩, ⟨"alice", "ip", 0, 0⟩] "alice" 0) := by
  decide

/-- C4 amended: with no new attempts, get_block_remaining_time is
non-increasing from t1 to t2 ≥ t1 provided the earliest recent failed attempt
is the same at both instants, or none remains at t2; when the earliest recent
failure instead slides out of the 1-minute window while a later failure
remains, the value can increase. -/
theorem C4_amended_monotone (log : List LoginAttempt) (u : String) (t1 t2 : Int)
    (h12 : t1 ≤ t2)
    (hsame : earliestRecentFailedTs log u (t2 - 60) = earliestRecentFailedTs log u (t1 - 60) ∨
      earliestRecentFailedTs log u (t2 - 60) = none) :
    get_block_remaining_time log u t2 ≤ get_block_remaining_time log u t1 := by
  rcases hsame with h | h
  · cases he : earliestRecentFailedTs log u (t1 - 60) with
    | none =>
        rw [he] at h
        rw [remaining_of_no_earliest h, remaining_of_no_earliest he]
    | some m =>
        rw [he] at h
        rw [remaining_of_earliest h, remaining_of_earliest he]
        omega
  · rw [remaining_of_no_earliest h]
    exact remaining_nonneg log u t1

theorem C4_witness :
    (0 : Int) ≤ 10 ∧
    (earliestRecentFailedTs [⟨"gina", "ip", 0, 0⟩] "gina" (10 - 60)
        = earliestRecentFailedTs [⟨"gina", "ip", 0, 0⟩] "gina" (0 - 60) ∨
      earliestRecentFailedTs [⟨"gina", "ip", 0, 0⟩] "gina" (10 - 60) = none) ∧
    get_block_remaining_time [⟨"gina", "ip", 0, 0⟩] "gina" 10
      ≤ get_block_remaining_time [⟨"gina", "ip", 0, 0⟩] "gina" 0 :=
  ⟨by decide, by decide,
    C4_amended_monotone [⟨"gina", "ip", 0, 0⟩] "gina" 0 10 (by decide) (by decide)⟩
